import Mathlib

set_option maxHeartbeats 1000000

/-!
Verification development for the PowerWatch build scripts.

The file embeds, as executable Lean definitions, the row-grouping loop of
`src/build_databases/build_database_ARG.py`, the table loop of
`src/build_databases/build_database_BRA.py`, and the country summary of
`src/utils/powerwatch_summary.py`, and proves properties of them.

Conventions of the embedding:
* text cells are modelled after `pw.format_string` has been applied, so an
  empty string models a blank / no-data cell (`pw.NO_DATA_UNICODE`);
* a numeric cell is `some v` when Python `float(...)` / `locale.atof` would
  succeed on it and `none` when the conversion would raise;
* a Python run that terminates with an uncaught exception is modelled by an
  `Option`-valued run function returning `none`;
* dictionaries loaded from auxiliary files are modelled as functions into
  `Option`.
-/

/-- Decimal digit characters of a natural number, most significant digit
first; structural recursion on a fuel argument (any `fuel > n` is enough). -/
def natReprAux : ℕ → ℕ → List Char
  | 0, _ => []
  | fuel + 1, n =>
    if n < 10 then [Nat.digitChar n]
    else natReprAux fuel (n / 10) ++ [Nat.digitChar (n % 10)]

/-- Decimal rendering of a natural number as a string. -/
def natRepr (n : ℕ) : String := ⟨natReprAux (n + 1) n⟩

/-- Modelled from the spec: `pw.make_id` (the `powerwatch` helper module is
not under `src/`); the spec states "identifier = concat(source_code,
counter)" (§4.2). -/
def make_id (code : String) (n : ℕ) : String := code ++ natRepr n

/-- Numeric value of a most-significant-first list of decimal digit
characters; left inverse of `natReprAux` on valid renderings. -/
def digitsVal (l : List Char) : ℕ := l.foldl (fun acc c => 10 * acc + (c.toNat - 48)) 0

lemma digitsVal_append (l : List Char) (c : Char) :
    digitsVal (l ++ [c]) = 10 * digitsVal l + (c.toNat - 48) := by
  simp [digitsVal, List.foldl_append]

lemma digitChar_toNat_sub (d : ℕ) (h : d < 10) : (Nat.digitChar d).toNat - 48 = d := by
  revert h; revert d; decide

lemma digitsVal_natReprAux : ∀ fuel n, n < fuel → digitsVal (natReprAux fuel n) = n := by
  intro fuel
  induction fuel with
  | zero => intro n h; omega
  | succ f ih =>
    intro n h
    by_cases h10 : n < 10
    · simp only [natReprAux, if_pos h10, digitsVal, List.foldl_cons, List.foldl_nil]
      simpa using digitChar_toNat_sub n h10
    · have hn : 0 < n := by omega
      have hdiv : n / 10 < n := Nat.div_lt_self hn (by omega)
      have hf : n / 10 < f := by omega
      simp only [natReprAux, if_neg h10]
      rw [digitsVal_append, ih _ hf, digitChar_toNat_sub _ (Nat.mod_lt n (by omega))]
      omega

lemma natRepr_injective : Function.Injective natRepr := by
  intro m n h
  have hdata : natReprAux (m + 1) m = natReprAux (n + 1) n := congrArg String.data h
  have := congrArg digitsVal hdata
  rwa [digitsVal_natReprAux _ _ (Nat.lt_succ_self m),
    digitsVal_natReprAux _ _ (Nat.lt_succ_self n)] at this

lemma string_append_data (s t : String) : (s ++ t).data = s.data ++ t.data := by
  cases s; cases t; rfl

lemma make_id_injective (code : String) : Function.Injective (make_id code) := by
  intro m n h
  apply natRepr_injective
  have : code.data ++ (natRepr m).data = code.data ++ (natRepr n).data := by
    have h1 := congrArg String.data h
    simp only [make_id] at h1
    rwa [string_append_data, string_append_data] at h1
  have h2 := List.append_cancel_left this
  cases hm : natRepr m; cases hn : natRepr n
  simp_all

/-! ## Argentina: `build_database_ARG.py`

Embedding of the module-level row grouping loop (lines 78-161). -/

/-- Conversion factor kW → MW (`CAPACITY_CONVERSION_TO_MW`, line 38). -/
def CAPACITY_CONVERSION_TO_MW : ℚ := 1 / 1000

/-- Conversion factor MWh → GWh (`GENERATION_CONVERSION_TO_GWH`, line 39). -/
def GENERATION_CONVERSION_TO_GWH : ℚ := 1 / 1000

/-- One raw ARG worksheet row. Text cells carry the result of
`pw.format_string` (empty string = blank / no data); `capacity` and
`generation` are `some v` when `float(cell)` succeeds and `none` when it
raises. -/
structure ArgRow where
  owner : String
  name : String
  fuel : String
  grid : String
  capacity : Option ℚ
  generation : Option ℚ
deriving DecidableEq, Repr

/-- The mutable loop state of lines 78-161: the open plant accumulator
(`current_*` variables) together with the id counter `count`. -/
structure ArgState where
  current_plant_name : String
  current_owner : String
  current_fuel_types : Finset String
  current_capacity_sum : ℚ
  current_generation_sum : ℚ
  count : ℕ
deriving DecidableEq

/-- A finalized plant record, as assembled by the `pw.PowerPlant(...)` calls
(lines 109-115 / 144-150); only the fields the build scripts actually set
are modelled, with the two enrichment-only fields absent (`none`) until
side-table enrichment. -/
structure PowerPlant where
  idnr : String
  name : String
  owner : String
  fuels : Finset String
  capacity : ℚ
  generation : ℚ
  location : Option (String × String) := none
  commissioning_year : Option String := none
deriving DecidableEq

/-- Emission of the open accumulator as a record (lines 109-115 = 144-150):
id `make_id "ARG" count`, fields from the `current_*` variables. -/
def finalize_ARG (st : ArgState) : PowerPlant :=
  { idnr := make_id "ARG" st.count
    name := st.current_plant_name
    owner := st.current_owner
    fuels := st.current_fuel_types
    capacity := st.current_capacity_sum
    generation := st.current_generation_sum }

/-- Reset of all `current_*` values to the present row (lines 118-131): the
`try/except` blocks turn a failed `float(...)` conversion into a zero
contribution, so `none` cells yield 0 here. -/
def argResetRow (thesaurus : String → Finset String) (row : ArgRow) (count : ℕ) : ArgState :=
  { current_plant_name := row.name
    current_owner := row.owner
    current_fuel_types := thesaurus row.fuel
    current_capacity_sum :=
      match row.capacity with
      | some v => v * CAPACITY_CONVERSION_TO_MW
      | none => 0
    current_generation_sum :=
      match row.generation with
      | some v => v * GENERATION_CONVERSION_TO_GWH
      | none => 0
    count := count }

/-- One iteration of the row loop (lines 92-161). Returns `none` when the
Python code would raise an uncaught exception (a malformed numeric cell on
the additional-unit branch, lines 135-136). `thesaurus` stands for
`pw.standardize_fuel(·, fuel_thesaurus)`. -/
def argStep (thesaurus : String → Finset String) (st : ArgState)
    (acc : List PowerPlant) (row : ArgRow) : Option (ArgState × List PowerPlant) :=
  if row.grid = "AISLADO" then
    some (st, acc)
  else if row.fuel ≠ "" then
    if row.name ≠ "" then
      if st.current_plant_name ≠ "" then
        some (argResetRow thesaurus row (st.count + 1), acc ++ [finalize_ARG st])
      else
        some (argResetRow thesaurus row st.count, acc)
    else
      match row.capacity, row.generation with
      | some c, some g =>
        some ({ st with
                current_capacity_sum :=
                  st.current_capacity_sum + c * CAPACITY_CONVERSION_TO_MW
                current_generation_sum :=
                  st.current_generation_sum + g * GENERATION_CONVERSION_TO_GWH
                current_fuel_types := st.current_fuel_types ∪ thesaurus row.fuel }, acc)
      | _, _ => none
  else
    if st.current_plant_name ≠ "" then
      some ({ current_plant_name := ""
              current_owner := ""
              current_fuel_types := ∅
              current_capacity_sum := 0
              current_generation_sum := 0
              count := st.count + 1 }, acc ++ [finalize_ARG st])
    else
      some (st, acc)

/-- The row loop over a list of rows, threading state and the list of
emitted records (in emission order; the Python stores them in
`plants_dictionary` keyed by `idnr`). -/
def argFold (thesaurus : String → Finset String) :
    ArgState → List PowerPlant → List ArgRow → Option (ArgState × List PowerPlant)
  | st, acc, [] => some (st, acc)
  | st, acc, row :: rows =>
    match argStep thesaurus st acc row with
    | some (st₁, acc₁) => argFold thesaurus st₁ acc₁ rows
    | none => none

/-- Special handling of the first data row (lines 84-89): the accumulator is
initialized from the row unconditionally — no grid filter, no name/fuel
test, and the `float` conversions are not guarded, so a malformed numeric
cell raises (`none`). -/
def argInit (thesaurus : String → Finset String) (rv0 : ArgRow) : Option ArgState :=
  match rv0.capacity, rv0.generation with
  | some c, some g =>
    some { current_plant_name := rv0.name
           current_owner := rv0.owner
           current_fuel_types := thesaurus rv0.fuel
           current_capacity_sum := c * CAPACITY_CONVERSION_TO_MW
           current_generation_sum := g * GENERATION_CONVERSION_TO_GWH
           count := 1 }
  | _, _ => none

/-- The whole grouping phase: first data row then the loop; result is the
emitted records in order plus the final state, or `none` on an uncaught
exception. -/
def argProcess (thesaurus : String → Finset String) (rv0 : ArgRow) (rows : List ArgRow) :
    Option (List PowerPlant × ArgState) :=
  match argInit thesaurus rv0 with
  | some st0 =>
    match argFold thesaurus st0 [] rows with
    | some (st₁, acc) => some (acc, st₁)
    | none => none
  | none => none

/-- Rows that the claims call "name-bearing, fuel-bearing, non-islanded":
exactly the rows that reset the accumulator on lines 118-131. -/
def isNameFuelRow (row : ArgRow) : Bool :=
  row.grid ≠ "AISLADO" && row.fuel ≠ "" && row.name ≠ ""

/-- Number of name-bearing, fuel-bearing, non-islanded rows in a sequence. -/
def nameFuelCount (rows : List ArgRow) : ℕ := rows.countP isNameFuelRow

/-- 1 when the accumulator is open (`current_plant_name` truthy), else 0. -/
def openBit (st : ArgState) : ℕ := if st.current_plant_name = "" then 0 else 1

/-- A concrete fuel thesaurus used in concrete runs. -/
def thGas : String → Finset String :=
  fun s => if s = "GAS" then {"Gas"} else if s = "HIDRO" then {"Hydro"} else ∅

lemma argStep_shape (thesaurus : String → Finset String) (st : ArgState)
    (acc : List PowerPlant) (row : ArgRow) (st₁ : ArgState) (acc₁ : List PowerPlant)
    (h : argStep thesaurus st acc row = some (st₁, acc₁)) :
    (acc₁ = acc ∧ st₁.count = st.count ∧ openBit st₁ = openBit st ∧ isNameFuelRow row = false) ∨
    (acc₁ = acc ++ [finalize_ARG st] ∧ st₁.count = st.count + 1 ∧ openBit st = 1 ∧
      openBit st₁ = if isNameFuelRow row then 1 else 0) ∨
    (acc₁ = acc ∧ st₁.count = st.count ∧ openBit st = 0 ∧ openBit st₁ = 1 ∧
      isNameFuelRow row = true) := by
  unfold argStep at h
  by_cases hg : row.grid = "AISLADO"
  · rw [if_pos hg] at h
    simp only [Option.some.injEq, Prod.mk.injEq] at h
    obtain ⟨h1, h2⟩ := h
    subst h1; subst h2
    exact Or.inl ⟨rfl, rfl, rfl, by simp [isNameFuelRow, hg]⟩
  · rw [if_neg hg] at h
    by_cases hf : row.fuel = ""
    · rw [if_neg (by simpa using hf)] at h
      by_cases ho : st.current_plant_name = ""
      · rw [if_neg (by simpa using ho)] at h
        simp only [Option.some.injEq, Prod.mk.injEq] at h
        obtain ⟨h1, h2⟩ := h
        subst h1; subst h2
        exact Or.inl ⟨rfl, rfl, rfl, by simp [isNameFuelRow, hf]⟩
      · rw [if_pos (by simpa using ho)] at h
        simp only [Option.some.injEq, Prod.mk.injEq] at h
        obtain ⟨h1, h2⟩ := h
        subst h1; subst h2
        exact Or.inr (Or.inl ⟨rfl, rfl, by simp [openBit, ho], by simp [openBit, isNameFuelRow, hf]⟩)
    · rw [if_pos (by simpa using hf)] at h
      by_cases hn : row.name = ""
      · rw [if_neg (by simpa using hn)] at h
        cases hc : row.capacity with
        | none => rw [hc] at h; cases hgen : row.generation <;> rw [hgen] at h <;> cases h
        | some c =>
          cases hgen : row.generation with
          | none => rw [hc, hgen] at h; cases h
          | some g =>
            rw [hc, hgen] at h
            simp only [Option.some.injEq, Prod.mk.injEq] at h
            obtain ⟨h1, h2⟩ := h
            subst h1; subst h2
            exact Or.inl ⟨rfl, rfl, by simp [openBit], by simp [isNameFuelRow, hn]⟩
      · rw [if_pos (by simpa using hn)] at h
        by_cases ho : st.current_plant_name = ""
        · rw [if_neg (by simpa using ho)] at h
          simp only [Option.some.injEq, Prod.mk.injEq] at h
          obtain ⟨h1, h2⟩ := h
          subst h1; subst h2
          refine Or.inr (Or.inr ⟨rfl, rfl, by simp [openBit, ho], ?_, ?_⟩)
          · simp [openBit, argResetRow, hn]
          · simp [isNameFuelRow, hg, hf, hn]
        · rw [if_pos (by simpa using ho)] at h
          simp only [Option.some.injEq, Prod.mk.injEq] at h
          obtain ⟨h1, h2⟩ := h
          subst h1; subst h2
          refine Or.inr (Or.inl ⟨rfl, rfl, by simp [openBit, ho], ?_⟩)
          simp [openBit, argResetRow, isNameFuelRow, hg, hf, hn]

lemma argFold_count (thesaurus : String → Finset String) :
    ∀ (rows : List ArgRow) (st : ArgState) (acc : List PowerPlant)
      (st' : ArgState) (acc' : List PowerPlant),
      argFold thesaurus st acc rows = some (st', acc') →
      acc'.length + openBit st' = acc.length + openBit st + nameFuelCount rows := by
  intro rows
  induction rows with
  | nil =>
    intro st acc st' acc' h
    obtain ⟨rfl, rfl⟩ : st = st' ∧ acc = acc' := by
      constructor <;> [exact congrArg Prod.fst (Option.some.inj h);
        exact congrArg Prod.snd (Option.some.inj h)]
    simp [nameFuelCount]
  | cons row rows ih =>
    intro st acc st' acc' h
    rw [argFold] at h
    cases hstep : argStep thesaurus st acc row with
    | none => rw [hstep] at h; cases h
    | some p =>
      obtain ⟨st₁, acc₁⟩ := p
      rw [hstep] at h
      have hrec := ih st₁ acc₁ st' acc' h
      have hshape := argStep_shape thesaurus st acc row st₁ acc₁ hstep
      have hcount : nameFuelCount (row :: rows) =
          nameFuelCount rows + if isNameFuelRow row then 1 else 0 := by
        simp [nameFuelCount, List.countP_cons]
      rcases hshape with ⟨ha, -, hb, hc⟩ | ⟨ha, -, hb, hc⟩ | ⟨ha, -, hb, hc, hd⟩ <;>
        subst ha <;> rw [hcount] <;> simp_all <;> omega

lemma argInit_some (thesaurus : String → Finset String) (rv0 : ArgRow) (st0 : ArgState)
    (h : argInit thesaurus rv0 = some st0) :
    st0.current_plant_name = rv0.name ∧ st0.count = 1 := by
  unfold argInit at h
  cases hc : rv0.capacity with
  | none => rw [hc] at h; cases h
  | some c =>
    cases hgen : rv0.generation with
    | none => rw [hc, hgen] at h; cases h
    | some g =>
      rw [hc, hgen] at h
      obtain rfl := Option.some.inj h
      exact ⟨rfl, rfl⟩

/-- C1 (amended): for the row grouping loop, the number of emitted records
plus an indicator for "accumulator still open at end of input" equals the
number of name-bearing, fuel-bearing, non-islanded loop rows plus an
indicator for "accumulator open after the first data row"; in particular a
group still open when the input ends is dropped, not emitted, so the record
count equals the name/fuel/non-islanded row count only when the two
indicators agree. -/
theorem arg_emitted_records_count (thesaurus : String → Finset String)
    (rv0 : ArgRow) (rows : List ArgRow) (ps : List PowerPlant) (st' : ArgState)
    (h : argProcess thesaurus rv0 rows = some (ps, st')) :
    ps.length + openBit st' = nameFuelCount rows + (if rv0.name = "" then 0 else 1) := by
  unfold argProcess at h
  cases hinit : argInit thesaurus rv0 with
  | none => rw [hinit] at h; cases h
  | some st0 =>
    rw [hinit] at h
    dsimp only at h
    cases hfold : argFold thesaurus st0 [] rows with
    | none => rw [hfold] at h; cases h
    | some p =>
      obtain ⟨st₁, acc⟩ := p
      rw [hfold] at h
      simp only [Option.some.injEq, Prod.mk.injEq] at h
      obtain ⟨h1, h2⟩ := h
      subst h1; subst h2
      have hc := argFold_count thesaurus rows st0 [] st₁ acc hfold
      have hopen : openBit st0 = if rv0.name = "" then 0 else 1 := by
        obtain ⟨hname, -⟩ := argInit_some thesaurus rv0 st0 hinit
        simp [openBit, hname]
      simp only [List.length_nil, Nat.zero_add] at hc
      omega

/-- C1 counterexample: the first data row has a blank name (accumulator
closed), and the loop processes exactly one name-bearing, fuel-bearing,
non-islanded row; that row starts a group, the input then ends, and the
still-open group is never finalized: zero records are emitted although the
claim demands one. -/
theorem arg_emitted_records_count_cex :
    (argProcess thGas ⟨"", "", "", "", some 0, some 0⟩
        [⟨"o", "A", "GAS", "SADI", some 0, some 0⟩]).map (fun out => out.1.length) = some 0 ∧
    nameFuelCount [⟨"o", "A", "GAS", "SADI", some 0, some 0⟩] = 1 := by
  exact ⟨by decide, by decide⟩

/-- C1 witness: the amended count identity instantiated on a concrete run. -/
theorem arg_emitted_records_count_witness :
    ([] : List PowerPlant).length +
        openBit { current_plant_name := "A", current_owner := "ow",
                  current_fuel_types := thGas "GAS",
                  current_capacity_sum := (0 : ℚ) * CAPACITY_CONVERSION_TO_MW,
                  current_generation_sum := (0 : ℚ) * GENERATION_CONVERSION_TO_GWH,
                  count := 1 } =
      nameFuelCount [] + (if ("A" : String) = "" then 0 else 1) :=
  arg_emitted_records_count thGas ⟨"ow", "A", "GAS", "SADI", some 0, some 0⟩ [] []
    { current_plant_name := "A", current_owner := "ow",
      current_fuel_types := thGas "GAS",
      current_capacity_sum := (0 : ℚ) * CAPACITY_CONVERSION_TO_MW,
      current_generation_sum := (0 : ℚ) * GENERATION_CONVERSION_TO_GWH,
      count := 1 } rfl

/-- C2 (amended): only the group-start branch (lines 122-131) recovers from
a malformed numeric cell, defaulting that field's contribution to zero and
continuing; on the additional-unit branch (lines 135-136) and in the first
data row initialization (lines 88-89) the unguarded `float(...)` raises and
the run aborts. -/
theorem arg_parse_failure_handling (thesaurus : String → Finset String)
    (st : ArgState) (acc : List PowerPlant) (row : ArgRow)
    (hg : row.grid ≠ "AISLADO") (hf : row.fuel ≠ "") :
    (row.name ≠ "" → (argStep thesaurus st acc row).isSome = true) ∧
    (row.name ≠ "" → row.capacity = none →
      ∀ st₁ acc₁, argStep thesaurus st acc row = some (st₁, acc₁) →
        st₁.current_capacity_sum = 0) ∧
    (row.name ≠ "" → row.generation = none →
      ∀ st₁ acc₁, argStep thesaurus st acc row = some (st₁, acc₁) →
        st₁.current_generation_sum = 0) ∧
    (row.name = "" → row.capacity = none ∨ row.generation = none →
      argStep thesaurus st acc row = none) ∧
    (row.capacity = none ∨ row.generation = none → argInit thesaurus row = none) := by
  refine ⟨?_, ?_, ?_, ?_, ?_⟩
  · intro hn
    unfold argStep
    rw [if_neg hg, if_pos (by simpa using hf), if_pos (by simpa using hn)]
    by_cases ho : st.current_plant_name = ""
    · rw [if_neg (by simpa using ho)]; rfl
    · rw [if_pos (by simpa using ho)]; rfl
  · intro hn hc st₁ acc₁ h
    unfold argStep at h
    rw [if_neg hg, if_pos (by simpa using hf), if_pos (by simpa using hn)] at h
    by_cases ho : st.current_plant_name = ""
    · rw [if_neg (by simpa using ho)] at h
      simp only [Option.some.injEq, Prod.mk.injEq] at h
      obtain ⟨h1, -⟩ := h
      subst h1
      simp [argResetRow, hc]
    · rw [if_pos (by simpa using ho)] at h
      simp only [Option.some.injEq, Prod.mk.injEq] at h
      obtain ⟨h1, -⟩ := h
      subst h1
      simp [argResetRow, hc]
  · intro hn hgen st₁ acc₁ h
    unfold argStep at h
    rw [if_neg hg, if_pos (by simpa using hf), if_pos (by simpa using hn)] at h
    by_cases ho : st.current_plant_name = ""
    · rw [if_neg (by simpa using ho)] at h
      simp only [Option.some.injEq, Prod.mk.injEq] at h
      obtain ⟨h1, -⟩ := h
      subst h1
      simp [argResetRow, hgen]
    · rw [if_pos (by simpa using ho)] at h
      simp only [Option.some.injEq, Prod.mk.injEq] at h
      obtain ⟨h1, -⟩ := h
      subst h1
      simp [argResetRow, hgen]
  · intro hn hbad
    unfold argStep
    rw [if_neg hg, if_pos (by simpa using hf), if_neg (by simpa using hn)]
    rcases hbad with hc | hgen
    · rw [hc]
    · rw [hgen]; cases row.capacity <;> rfl
  · intro hbad
    unfold argInit
    rcases hbad with hc | hgen
    · rw [hc]
    · rw [hgen]; cases row.capacity <;> rfl

/-- C2 counterexample: a run whose second data row is an additional-unit row
(blank name, non-blank fuel, grid-connected) with a malformed capacity cell;
the unguarded `float(...)` on line 135 raises, so the whole run aborts
(`none`) instead of treating the field as zero and continuing. -/
theorem arg_parse_failure_handling_cex :
    argProcess thGas ⟨"ow", "A", "GAS", "SADI", some 0, some 0⟩
      [⟨"o", "", "GAS", "SADI", none, some 0⟩] = none := by
  decide

/-- C2 witness: the amended branch behavior instantiated at a concrete
group-start row with both numeric cells malformed: the parse failure is
turned into a zero capacity sum and the step succeeds. -/
theorem arg_parse_failure_handling_witness :
    (argResetRow thGas ⟨"o", "P", "GAS", "SADI", none, none⟩ 1).current_capacity_sum = 0 :=
  (arg_parse_failure_handling thGas
    { current_plant_name := "", current_owner := "", current_fuel_types := ∅,
      current_capacity_sum := 0, current_generation_sum := 0, count := 1 } []
    ⟨"o", "P", "GAS", "SADI", none, none⟩ (by decide) (by decide)).2.1 (by decide) rfl
    (argResetRow thGas ⟨"o", "P", "GAS", "SADI", none, none⟩ 1) [] rfl

/-- C3 (amended): every loop row whose grid field is `AISLADO` is discarded
before boundary evaluation — the step leaves the accumulator, the emitted
records and the identifier counter exactly unchanged; the first data row
(lines 84-89), however, is not covered by this filter. -/
theorem arg_aislado_rows_inert (thesaurus : String → Finset String)
    (st : ArgState) (acc : List PowerPlant) (row : ArgRow)
    (hg : row.grid = "AISLADO") :
    argStep thesaurus st acc row = some (st, acc) := by
  unfold argStep
  rw [if_pos hg]

/-- C3 counterexample: a first data row with grid `AISLADO` is not
discarded: it initializes the accumulator with its name, starts a group,
and that group is emitted with identifier counter value 1 once a boundary
row arrives. -/
theorem arg_aislado_rows_inert_cex :
    (argProcess thGas ⟨"ow", "X", "GAS", "AISLADO", some 0, some 0⟩
        [⟨"", "", "", "SADI", some 0, some 0⟩]).map
      (fun out => out.1.map (fun q => (q.idnr, q.name))) =
    some [(make_id "ARG" 1, "X")] := by
  decide

/-- C3 witness: the inertness of an `AISLADO` loop row instantiated at a
concrete state and row. -/
theorem arg_aislado_rows_inert_witness :
    argStep thGas
      { current_plant_name := "A", current_owner := "ow",
        current_fuel_types := ∅, current_capacity_sum := 0,
        current_generation_sum := 0, count := 2 } []
      ⟨"o", "B", "GAS", "AISLADO", some 5, some 5⟩ =
    some ({ current_plant_name := "A", current_owner := "ow",
            current_fuel_types := ∅, current_capacity_sum := 0,
            current_generation_sum := 0, count := 2 }, []) :=
  arg_aislado_rows_inert thGas _ _ _ rfl

lemma argFold_ids (thesaurus : String → Finset String) :
    ∀ (rows : List ArgRow) (st : ArgState) (acc : List PowerPlant)
      (st' : ArgState) (acc' : List PowerPlant),
      argFold thesaurus st acc rows = some (st', acc') →
      ∃ Δ : List PowerPlant, acc' = acc ++ Δ ∧
        Δ.map (fun p => p.idnr) = (List.range' st.count Δ.length).map (make_id "ARG") ∧
        st'.count = st.count + Δ.length := by
  intro rows
  induction rows with
  | nil =>
    intro st acc st' acc' h
    simp only [argFold, Option.some.injEq, Prod.mk.injEq] at h
    obtain ⟨h1, h2⟩ := h
    subst h1; subst h2
    exact ⟨[], by simp, by simp, by simp⟩
  | cons row rows ih =>
    intro st acc st' acc' h
    rw [argFold] at h
    cases hstep : argStep thesaurus st acc row with
    | none => rw [hstep] at h; cases h
    | some p =>
      obtain ⟨st₁, acc₁⟩ := p
      rw [hstep] at h
      obtain ⟨Δ, hΔ1, hΔ2, hΔ3⟩ := ih st₁ acc₁ st' acc' h
      rcases argStep_shape thesaurus st acc row st₁ acc₁ hstep with
        ⟨ha, hc, -, -⟩ | ⟨ha, hc, -, -⟩ | ⟨ha, hc, -, -, -⟩
      · subst ha
        exact ⟨Δ, hΔ1, by rw [hΔ2, hc], by omega⟩
      · subst ha
        refine ⟨finalize_ARG st :: Δ, ?_, ?_, by simp; omega⟩
        · rw [hΔ1, List.append_assoc]; rfl
        · simp only [List.map_cons, List.length_cons, List.range'_succ, hΔ2, hc]
          rfl
      · subst ha
        exact ⟨Δ, hΔ1, by rw [hΔ2, hc], by omega⟩

/-- C4 (amended): in the Argentina run the identifiers attached to finalized
records are `make_id "ARG" k` for the consecutive counter values `k = 1, 2,
..., n` in assignment order (strictly increasing counters), hence pairwise
distinct; the Brazil script, by contrast, derives its identifier number from
the row's CEG code, not from a counter (see the counterexample). -/
theorem arg_identifier_assignment (thesaurus : String → Finset String)
    (rv0 : ArgRow) (rows : List ArgRow) (ps : List PowerPlant) (st' : ArgState)
    (h : argProcess thesaurus rv0 rows = some (ps, st')) :
    ps.map (fun p => p.idnr) = (List.range' 1 ps.length).map (make_id "ARG") ∧
    (ps.map (fun p => p.idnr)).Nodup := by
  unfold argProcess at h
  cases hinit : argInit thesaurus rv0 with
  | none => rw [hinit] at h; cases h
  | some st0 =>
    rw [hinit] at h
    dsimp only at h
    cases hfold : argFold thesaurus st0 [] rows with
    | none => rw [hfold] at h; cases h
    | some p =>
      obtain ⟨st₁, acc⟩ := p
      rw [hfold] at h
      simp only [Option.some.injEq, Prod.mk.injEq] at h
      obtain ⟨h1, h2⟩ := h
      subst h1; subst h2
      obtain ⟨Δ, hΔ1, hΔ2, -⟩ := argFold_ids thesaurus rows st0 [] _ _ hfold
      obtain ⟨-, hcount⟩ := argInit_some thesaurus rv0 st0 hinit
      rw [List.nil_append] at hΔ1
      subst hΔ1
      rw [hcount] at hΔ2
      refine ⟨hΔ2, ?_⟩
      rw [hΔ2]
      exact ((List.nodup_range' 1 _).map (make_id_injective "ARG"))

/-- Records emitted by the concrete two-record Argentina run used below. -/
def argRunPlants : List PowerPlant :=
  [{ idnr := make_id "ARG" 1
     name := "A"
     owner := "ow"
     fuels := thGas "GAS"
     capacity := (0 : ℚ) * CAPACITY_CONVERSION_TO_MW
     generation := (0 : ℚ) * GENERATION_CONVERSION_TO_GWH },
   { idnr := make_id "ARG" 2
     name := "B"
     owner := "o"
     fuels := thGas "GAS"
     capacity := (0 : ℚ) * CAPACITY_CONVERSION_TO_MW
     generation := 0 }]

/-- C4 witness: the identifier sequence of a concrete two-record Argentina
run is `[make_id "ARG" 1, make_id "ARG" 2]` and has no duplicates. -/
theorem arg_identifier_assignment_witness :
    argRunPlants.map (fun p => p.idnr) =
      (List.range' 1 argRunPlants.length).map (make_id "ARG") ∧
    (argRunPlants.map (fun p => p.idnr)).Nodup :=
  arg_identifier_assignment thGas ⟨"ow", "A", "GAS", "SADI", some 0, some 0⟩
    [⟨"o", "B", "GAS", "SADI", some 0, none⟩, ⟨"", "", "", "SADI", some 0, some 0⟩]
    argRunPlants
    { current_plant_name := "", current_owner := "", current_fuel_types := ∅,
      current_capacity_sum := 0, current_generation_sum := 0, count := 3 } rfl

/-! ## Brazil: `build_database_BRA.py`

Embedding of the table-row loop (lines 90-153). -/

/-- The fixed fuel-code dictionary `fuel_types` (lines 47-54). -/
def fuel_types : List (String × String) :=
  [("CGH", "Hydro"), ("CGU", "Wave and Tidal"), ("EOL", "Wind"), ("PCH", "Hydro"),
   ("UFV", "Solar"), ("UHE", "Hydro"), ("UTE", "Thermal"), ("UTN", "Nuclear")]

/-- Association-list lookup mirroring Python dict indexing; `none` models a
`KeyError`. -/
def lookupKey {α : Type} : List (String × α) → String → Option α
  | [], _ => none
  | (k, v) :: rest, s => if s = k then some v else lookupKey rest s

/-- `standardize_fuel_BRA` (lines 56-57): a bare dict lookup with no
fallback; `none` models the uncaught `KeyError` on any other key. -/
def standardize_fuel_BRA (fuel_string : String) : Option String :=
  lookupKey fuel_types fuel_string

/-- Python `int(...)` restricted to plain decimal numerals: `some` of the
value on a non-empty all-digit string, `none` (a `ValueError`) otherwise. -/
def pyInt (l : List Char) : Option ℕ :=
  if l ≠ [] ∧ l.all (fun c => c.isDigit) then
    some (l.foldl (fun acc c => 10 * acc + (c.toNat - 48)) 0)
  else none

/-- Python slice `ceg_code[-11:-5]` followed by `int(...)` (line 97); `none`
models the `ValueError` when the slice is not a decimal numeral (the CEG
codes of interest put six digits there). -/
def cegPlantId (s : String) : Option ℕ :=
  pyInt ((s.data.drop (s.data.length - 11)).take (s.data.length - 5 - (s.data.length - 11)))

/-- Python slice `ceg_code[0:3]` (line 98). -/
def cegFuelKey (s : String) : String := String.mk (s.data.take 3)

/-- Python slice `ceg_code[0:16]` (line 101), the key of the coordinate
lookup. -/
def cegShortKey (s : String) : String := String.mk (s.data.take 16)

/-- Boolean test that `needle` occurs as a contiguous run inside the second
list (Python `needle in text`). -/
def containsSeq (needle : List Char) : List Char → Bool
  | [] => needle.isEmpty
  | c :: rest => needle.isPrefixOf (c :: rest) || containsSeq needle rest

/-- One data row of the second HTML table (header/footer rows already
skipped): the stripped CEG code text (cell 0), the plant name after
`pw.format_string` (cell 1), the operational date text (cell 2), the
capacity after `locale.atof` (cell 4, assumed well-formed), and the owner
description after `pw.format_string` (cell 6). -/
structure BraRow where
  ceg_code : String
  name : String
  op_date : String
  capacity : ℚ
  owner_description : String
deriving DecidableEq, Repr

/-- A Brazil plant record as built on lines 148-153 (the owner description
is computed but not passed to `pw.PowerPlant`, so it is not a record
field). -/
structure BraPlant where
  idnr : String
  name : String
  fuel : String
  latitude : Option ℚ
  longitude : Option ℚ
  capacity : ℚ
deriving DecidableEq, Repr

/-- Loop state: the `plants_dictionary` assignments in table order, plus
`found_coordinates_count`. -/
structure BraState where
  plants : List BraPlant
  found_coordinates_count : ℕ
deriving DecidableEq, Repr

/-- Outcome of one loop body execution: continue, `break` (line 125), or an
uncaught exception. -/
inductive BraOut where
  | cont (st : BraState)
  | brk (st : BraState)
  | err
deriving DecidableEq, Repr

/-- The membership test `não identificado in owner_description`
(line 123). -/
def hasUnidentifiedOwner (owner_description : String) : Bool :=
  containsSeq "não identificado".data owner_description.data

/-- One iteration of the row loop (lines 91-153): extract the plant id and
fuel from the CEG code (either failure aborts the run), resolve coordinates
by the 16-character CEG prefix, then — before any record is stored — `break`
out of the whole loop if the owner description carries the
"não identificado" marker; otherwise append the assembled record. -/
def braStep (plant_coordinates : String → Option (ℚ × ℚ)) (st : BraState)
    (row : BraRow) : BraOut :=
  match cegPlantId row.ceg_code, standardize_fuel_BRA (cegFuelKey row.ceg_code) with
  | some plant_id, some fuel =>
    let coords := plant_coordinates (cegShortKey row.ceg_code)
    let fc :=
      match coords with
      | some _ => st.found_coordinates_count + 1
      | none => st.found_coordinates_count
    if hasUnidentifiedOwner row.owner_description then
      BraOut.brk { plants := st.plants, found_coordinates_count := fc }
    else
      BraOut.cont
        { plants := st.plants ++
            [{ idnr := make_id "BRA" plant_id
               name := row.name
               fuel := fuel
               latitude := coords.map Prod.fst
               longitude := coords.map Prod.snd
               capacity := row.capacity * CAPACITY_CONVERSION_TO_MW }]
          found_coordinates_count := fc }
  | _, _ => BraOut.err

/-- The row loop over the extracted table rows: `brk` ends the loop early
(keeping what was accumulated), `err` aborts the run (`none`). -/
def braRun (plant_coordinates : String → Option (ℚ × ℚ)) :
    BraState → List BraRow → Option BraState
  | st, [] => some st
  | st, row :: rows =>
    match braStep plant_coordinates st row with
    | BraOut.cont st₁ => braRun plant_coordinates st₁ rows
    | BraOut.brk st₁ => some st₁
    | BraOut.err => none

/-- The whole Brazil table pass, from the empty dictionary and zero
coordinate count. -/
def braProcess (plant_coordinates : String → Option (ℚ × ℚ))
    (rows : List BraRow) : Option BraState :=
  braRun plant_coordinates { plants := [], found_coordinates_count := 0 } rows

/-- An empty coordinate table. -/
def noCoords : String → Option (ℚ × ℚ) := fun _ => none

/-- C4 counterexample: a concrete two-row Brazil run. The identifiers are
taken from the rows' CEG codes (`int(ceg_code[-11:-5])`), not from a
source-scoped counter: the first identifier is not `make_id "BRA" 1`, and
the sequence is not increasing in assignment order. -/
theorem arg_identifier_assignment_cex :
    (braProcess noCoords
        [⟨"UHE.PH.RS.000005-1.01", "PlantX", "01/01/2000", 1000, "OwnerA"⟩,
         ⟨"UTE.PH.RS.000003-1.01", "PlantY", "02/02/2000", 500, "OwnerB"⟩]).map
      (fun st => st.plants.map (fun p => p.idnr)) =
      some [make_id "BRA" 5, make_id "BRA" 3] ∧
    make_id "BRA" 5 ≠ make_id "BRA" 1 ∧
    ¬ (make_id "BRA" 5).data < (make_id "BRA" 3).data := by
  refine ⟨by decide, by decide, by decide⟩

/-- C5: evaluation of the embedded Brazil loop at a failing input. The first
row's owner description contains the "não identificado" marker; the `break`
on line 125 then terminates the whole table loop before the row's record is
stored, so the run ends with zero records — the second row is never
consumed, and no record with a sentinel owner is produced. -/
theorem bra_owner_marker_stops_run :
    (braProcess noCoords
        [⟨"UHE.PH.RS.000005-1.01", "PlantX", "01/01/2000", 1000,
            "Consórcio não identificado"⟩,
         ⟨"UTE.PH.RS.000003-1.01", "PlantY", "02/02/2000", 500, "OwnerB"⟩]).map
      (fun st => st.plants.length) = some 0 := by
  decide

lemma lookupKey_eq_none {α : Type} :
    ∀ (l : List (String × α)) (s : String), s ∉ l.map Prod.fst → lookupKey l s = none := by
  intro l
  induction l with
  | nil => intro s _; rfl
  | cons kv rest ih =>
    intro s h
    obtain ⟨k, v⟩ := kv
    simp only [List.map_cons, List.mem_cons] at h
    push_neg at h
    rw [lookupKey, if_neg h.1]
    exact ih s h.2

lemma braStep_fuel_err (coords : String → Option (ℚ × ℚ)) (st : BraState) (row : BraRow)
    (h : standardize_fuel_BRA (cegFuelKey row.ceg_code) = none) :
    braStep coords st row = BraOut.err := by
  unfold braStep
  rw [h]
  cases cegPlantId row.ceg_code <;> rfl

/-- C10: `standardize_fuel_BRA` is a partial function over the fixed 8-key
mapping: each of the keys CGH, CGU, EOL, PCH, UFV, UHE, UTE, UTN maps to its
canonical fuel, every other string raises a `KeyError` (`none`), and a table
row whose CEG-code three-letter prefix is not one of the keys aborts the
entire remaining run — there is no fallback category. -/
theorem standardize_fuel_BRA_partial_map :
    (standardize_fuel_BRA "CGH" = some "Hydro" ∧
     standardize_fuel_BRA "CGU" = some "Wave and Tidal" ∧
     standardize_fuel_BRA "EOL" = some "Wind" ∧
     standardize_fuel_BRA "PCH" = some "Hydro" ∧
     standardize_fuel_BRA "UFV" = some "Solar" ∧
     standardize_fuel_BRA "UHE" = some "Hydro" ∧
     standardize_fuel_BRA "UTE" = some "Thermal" ∧
     standardize_fuel_BRA "UTN" = some "Nuclear") ∧
    (∀ s : String, s ∉ fuel_types.map Prod.fst → standardize_fuel_BRA s = none) ∧
    (∀ (coords : String → Option (ℚ × ℚ)) (st : BraState) (row : BraRow)
      (rows : List BraRow),
      standardize_fuel_BRA (cegFuelKey row.ceg_code) = none →
      braRun coords st (row :: rows) = none) := by
  refine ⟨by decide, ?_, ?_⟩
  · intro s h
    exact lookupKey_eq_none fuel_types s h
  · intro coords st row rows h
    rw [braRun, braStep_fuel_err coords st row h]

/-- C10 witness: a run whose first row has the unmapped CEG prefix `XYZ`
aborts immediately. -/
theorem standardize_fuel_BRA_partial_map_witness :
    braRun noCoords { plants := [], found_coordinates_count := 0 }
      [⟨"XYZ.PH.RS.000009-1.01", "PlantZ", "01/01/2000", 100, "OwnerC"⟩] = none :=
  standardize_fuel_BRA_partial_map.2.2 noCoords
    { plants := [], found_coordinates_count := 0 }
    ⟨"XYZ.PH.RS.000009-1.01", "PlantZ", "01/01/2000", 100, "OwnerC"⟩ [] (by decide)

/-- A coordinate table whose only key happens to equal a plant name, used to
show the Brazil coordinate join is not keyed by name. -/
def coordsByName : String → Option (ℚ × ℚ) := fun s => if s = "Itaipu" then some (1, 2) else none

/-- C7 counterexample: the Brazil coordinate lookup is keyed by the
16-character CEG-code prefix, not by the plant's name: a plant named
`Itaipu` whose name is a key of the coordinate table still gets no
coordinates, because its CEG prefix is not a key. -/
theorem joins_are_exact_keyed_cex :
    (coordsByName "Itaipu").isSome = true ∧
    (braProcess coordsByName
        [⟨"UHE.PH.RS.000005-1.01", "Itaipu", "01/01/2000", 1000, "Own"⟩]).map
      (fun st => st.plants.map (fun p => (p.name, p.latitude.isSome, p.longitude.isSome))) =
      some [("Itaipu", false, false)] := by
  exact ⟨by decide, by decide⟩

/-! ## Argentina side-table enrichment (lines 163-180). -/

/-- The per-plant body of the enrichment loop: an exact lookup of
`plant.name` in the locations dictionary (lines 169-171), then an exact
lookup of `plant.name` in the commissioning-years dictionary
(lines 176-177). -/
def enrichOne (locations_dictionary : String → Option (String × String))
    (commissioning_years_dictionary : String → Option String)
    (p : PowerPlant) : PowerPlant :=
  let p₁ :=
    match locations_dictionary p.name with
    | some coords => { p with location := some coords }
    | none => p
  match commissioning_years_dictionary p₁.name with
  | some y => { p₁ with commissioning_year := some y }
  | none => p₁

/-- The enrichment loop over all plants (lines 163-180), also producing the
`location_not_found` and `year_not_found` diagnostic lists. The Python lists
hold the plant objects themselves, which may still be mutated by the other
enrichment afterwards, so each list holds the final enriched record. -/
def enrichLoop (locations_dictionary : String → Option (String × String))
    (commissioning_years_dictionary : String → Option String) :
    List PowerPlant → List PowerPlant × List PowerPlant × List PowerPlant
  | [] => ([], [], [])
  | p :: ps =>
    let q :=
      match locations_dictionary p.name with
      | some coords => { p with location := some coords }
      | none => p
    let q₂ :=
      match commissioning_years_dictionary q.name with
      | some y => { q with commissioning_year := some y }
      | none => q
    let rest := enrichLoop locations_dictionary commissioning_years_dictionary ps
    (q₂ :: rest.1,
     (match locations_dictionary p.name with
      | some _ => rest.2.1
      | none => q₂ :: rest.2.1),
     (match commissioning_years_dictionary p.name with
      | some _ => rest.2.2
      | none => q₂ :: rest.2.2))

lemma enrichOne_name (locD : String → Option (String × String))
    (yrD : String → Option String) (p : PowerPlant) :
    (enrichOne locD yrD p).name = p.name := by
  unfold enrichOne
  cases locD p.name <;> dsimp only <;> cases yrD p.name <;> rfl

/-- C6: for each finalized record and each of the two lookup tables
independently, an exact hit on the record's name populates the
corresponding field and a miss leaves the field as it was and puts the
record on that table's not-found list; the two enrichments are independent
(a record can hit the location table and miss the year table), the other
fields are untouched, and no record is dropped. -/
theorem arg_enrichment_spec (locD : String → Option (String × String))
    (yrD : String → Option String) (ps : List PowerPlant) :
    (enrichLoop locD yrD ps).1 = ps.map (enrichOne locD yrD) ∧
    (enrichLoop locD yrD ps).1.length = ps.length ∧
    (enrichLoop locD yrD ps).2.1 =
      (ps.map (enrichOne locD yrD)).filter (fun q => (locD q.name).isNone) ∧
    (enrichLoop locD yrD ps).2.2 =
      (ps.map (enrichOne locD yrD)).filter (fun q => (yrD q.name).isNone) ∧
    (∀ p : PowerPlant,
      (enrichOne locD yrD p).location =
        (match locD p.name with
         | some coords => some coords
         | none => p.location) ∧
      (enrichOne locD yrD p).commissioning_year =
        (match yrD p.name with
         | some y => some y
         | none => p.commissioning_year) ∧
      (enrichOne locD yrD p).name = p.name ∧
      (enrichOne locD yrD p).idnr = p.idnr ∧
      (enrichOne locD yrD p).owner = p.owner ∧
      (enrichOne locD yrD p).fuels = p.fuels ∧
      (enrichOne locD yrD p).capacity = p.capacity ∧
      (enrichOne locD yrD p).generation = p.generation) ∧
    (∃ (locD₂ : String → Option (String × String)) (yrD₂ : String → Option String)
      (p : PowerPlant),
      ((enrichOne locD₂ yrD₂ p).location).isSome = true ∧
      (enrichOne locD₂ yrD₂ p).commissioning_year = none) := by
  have hone : ∀ p : PowerPlant,
      (enrichOne locD yrD p).location =
        (match locD p.name with
         | some coords => some coords
         | none => p.location) ∧
      (enrichOne locD yrD p).commissioning_year =
        (match yrD p.name with
         | some y => some y
         | none => p.commissioning_year) ∧
      (enrichOne locD yrD p).name = p.name ∧
      (enrichOne locD yrD p).idnr = p.idnr ∧
      (enrichOne locD yrD p).owner = p.owner ∧
      (enrichOne locD yrD p).fuels = p.fuels ∧
      (enrichOne locD yrD p).capacity = p.capacity ∧
      (enrichOne locD yrD p).generation = p.generation := by
    intro p
    unfold enrichOne
    cases hl : locD p.name <;> cases hy : yrD p.name <;>
      simp_all
  have hloop : ∀ ps : List PowerPlant,
      (enrichLoop locD yrD ps).1 = ps.map (enrichOne locD yrD) ∧
      (enrichLoop locD yrD ps).2.1 =
        (ps.map (enrichOne locD yrD)).filter (fun q => (locD q.name).isNone) ∧
      (enrichLoop locD yrD ps).2.2 =
        (ps.map (enrichOne locD yrD)).filter (fun q => (yrD q.name).isNone) := by
    intro ps
    induction ps with
    | nil => exact ⟨rfl, rfl, rfl⟩
    | cons p ps ih =>
      obtain ⟨ih1, ih2, ih3⟩ := ih
      refine ⟨?_, ?_, ?_⟩ <;>
        · rw [enrichLoop]
          dsimp only
          cases hl : locD p.name <;> cases hy : yrD p.name <;>
            simp [List.map_cons, List.filter_cons, enrichOne, hl, hy, ih1, ih2, ih3]
  obtain ⟨h1, h2, h3⟩ := hloop ps
  refine ⟨h1, by rw [h1, List.length_map], h2, h3, hone, ?_⟩
  refine ⟨fun _ => some ("-34.5", "-58.5"), fun _ => none,
    { idnr := make_id "ARG" 1, name := "A", owner := "", fuels := ∅,
      capacity := 0, generation := 0 }, by rfl, by rfl⟩

/-- C7 (amended): every auxiliary join is an exact lookup with no fuzzy
matching, but the join keys differ per source: both Argentina enrichments
— the location join (lines 169-171) and the commissioning-year join
(lines 176-177) — are keyed by the record's normalized plant name, while
the Brazil coordinate join is keyed by the 16-character CEG-code prefix of
the row (the plant name plays no role there, see the counterexample). -/
theorem joins_are_exact_keyed :
    (∀ (locD : String → Option (String × String)) (yrD : String → Option String)
      (p : PowerPlant),
      (enrichOne locD yrD p).location =
        (match locD p.name with
         | some coords => some coords
         | none => p.location) ∧
      (enrichOne locD yrD p).commissioning_year =
        (match yrD p.name with
         | some y => some y
         | none => p.commissioning_year)) ∧
    (∀ (coords : String → Option (ℚ × ℚ)) (st : BraState) (row : BraRow) (st₁ : BraState),
      braStep coords st row = BraOut.cont st₁ →
      ∃ q : BraPlant, st₁.plants = st.plants ++ [q] ∧
        q.latitude = (coords (cegShortKey row.ceg_code)).map Prod.fst ∧
        q.longitude = (coords (cegShortKey row.ceg_code)).map Prod.snd) := by
  constructor
  · intro locD yrD p
    unfold enrichOne
    cases hl : locD p.name <;> dsimp only <;> cases hy : yrD p.name <;> simp_all
  · intro coords st row st₁ h
    unfold braStep at h
    cases hpid : cegPlantId row.ceg_code with
    | none => rw [hpid] at h; cases h
    | some pid =>
      cases hfuel : standardize_fuel_BRA (cegFuelKey row.ceg_code) with
      | none => rw [hpid, hfuel] at h; cases h
      | some fuel =>
        rw [hpid, hfuel] at h
        dsimp only at h
        by_cases hmark : hasUnidentifiedOwner row.owner_description = true
        · rw [if_pos hmark] at h; cases h
        · rw [if_neg hmark] at h
          injection h with h₁
          exact ⟨_, by rw [← h₁], rfl, rfl⟩

/-- A concrete Argentina location table keyed by plant name. -/
def locTableItaipu : String → Option (String × String) :=
  fun s => if s = "Itaipu" then some ("-25.4", "-54.6") else none

/-- A concrete Argentina commissioning-year table keyed by plant name. -/
def yearTableItaipu : String → Option String :=
  fun s => if s = "Itaipu" then some "1984" else none

/-- A concrete plant record used to instantiate the enrichment joins. -/
def plantItaipu : PowerPlant :=
  { idnr := make_id "ARG" 1, name := "Itaipu", owner := "", fuels := ∅,
    capacity := 0, generation := 0 }

/-- C7 witness: the two name-keyed Argentina joins and the CEG-keyed Brazil
coordinate join instantiated at concrete inputs. -/
theorem joins_are_exact_keyed_witness :
    (enrichOne locTableItaipu yearTableItaipu plantItaipu).location =
      some ("-25.4", "-54.6") ∧
    (enrichOne locTableItaipu yearTableItaipu plantItaipu).commissioning_year =
      some "1984" ∧
    ∃ q : BraPlant,
      ({ plants := [{ idnr := make_id "BRA" 5, name := "Itaipu", fuel := "Hydro",
                      latitude := none, longitude := none,
                      capacity := (1000 : ℚ) * CAPACITY_CONVERSION_TO_MW }],
         found_coordinates_count := 0 } : BraState).plants =
        ({ plants := [], found_coordinates_count := 0 } : BraState).plants ++ [q] ∧
      q.latitude =
        (noCoords (cegShortKey "UHE.PH.RS.000005-1.01")).map Prod.fst ∧
      q.longitude =
        (noCoords (cegShortKey "UHE.PH.RS.000005-1.01")).map Prod.snd :=
  ⟨(joins_are_exact_keyed.1 locTableItaipu yearTableItaipu plantItaipu).1.trans rfl,
   (joins_are_exact_keyed.1 locTableItaipu yearTableItaipu plantItaipu).2.trans rfl,
   joins_are_exact_keyed.2 noCoords { plants := [], found_coordinates_count := 0 }
    ⟨"UHE.PH.RS.000005-1.01", "Itaipu", "01/01/2000", 1000, "Own"⟩
    { plants := [{ idnr := make_id "BRA" 5, name := "Itaipu", fuel := "Hydro",
                   latitude := none, longitude := none,
                   capacity := (1000 : ℚ) * CAPACITY_CONVERSION_TO_MW }],
      found_coordinates_count := 0 } rfl⟩

/-! ## Summary: `utils/powerwatch_summary.py`

Embedding of `country_summary` (lines 70-208) and the summary writer loop
(lines 234-243) over an in-memory table of database rows. -/

/-- One row of the flat database table the summary script queries; every
column other than `country` is nullable. -/
structure DbRecord where
  country : String
  name : Option String := none
  pw_idnr : Option String := none
  capacity_mw : Option ℚ := none
  year_of_capacity_data : Option ℕ := none
  owner : Option String := none
  source : Option String := none
  url : Option String := none
  latitude : Option ℚ := none
  longitude : Option ℚ := none
  fuel1 : Option String := none
  fuel2 : Option String := none
  fuel3 : Option String := none
  fuel4 : Option String := none
  generation_gwh_2012 : Option ℚ := none
  generation_gwh_2013 : Option ℚ := none
  generation_gwh_2014 : Option ℚ := none
  generation_gwh_2015 : Option ℚ := none
  generation_gwh_2016 : Option ℚ := none
deriving DecidableEq

/-- SQL `SUM` over a nullable column: `NULL` cells are skipped, and the sum
of no non-`NULL` cells is `NULL`. -/
def sqlSum (l : List (Option ℚ)) : Option ℚ :=
  if l.filterMap id = [] then none else some (l.filterMap id).sum

/-- SQL `MAX` over a nullable column. -/
def sqlMax (l : List (Option ℚ)) : Option ℚ :=
  (l.filterMap id).max?

/-- Lines 153-156: a per-fuel capacity sum that is SQL `NULL` (no matching
rows, or only `NULL` capacities) is recorded as 0, otherwise divided by
1000. -/
def fuelCapGw (x : Option ℚ) : ℚ :=
  if x = none then 0 else x.getD 0 / 1000

/-- The SQL condition `fuel1="f" OR fuel2="f" OR fuel3="f" OR fuel4="f"`
(`NULL` compares false). -/
def rowMatchesFuel (fuel : String) (r : DbRecord) : Bool :=
  r.fuel1 == some fuel || r.fuel2 == some fuel || r.fuel3 == some fuel || r.fuel4 == some fuel

/-- The dictionary returned by `country_summary`. A `none` / `[]` field
models a key that is absent from the dictionary (count-0 short-circuit) or
holds SQL `NULL`; the per-fuel counts and capacities are keyed lists over
the canonical fuel list. -/
structure Summary where
  country : String
  iso_code : String
  count : ℕ
  total_capacity_gw : Option ℚ := none
  max_capacity_mw : Option ℚ := none
  count_distinct_fuel : Option ℕ := none
  fuel_counts : List (String × ℕ) := []
  fuel_capacities_gw : List (String × ℚ) := []
  count_distinct_name : Option ℕ := none
  count_distinct_owner : Option ℕ := none
  count_distinct_source : Option ℕ := none
  count_null_name : Option ℕ := none
  count_null_pw_idnr : Option ℕ := none
  count_null_capacity_mw : Option ℕ := none
  count_null_year_of_capacity_data : Option ℕ := none
  count_null_owner : Option ℕ := none
  count_null_source : Option ℕ := none
  count_null_url : Option ℕ := none
  count_null_latitude : Option ℕ := none
  count_null_longitude : Option ℕ := none
  count_null_fuel : Option ℕ := none
  count_null_generation_gwh_all : Option ℕ := none
  count_generation_gwh_2012 : Option ℕ := none
  count_generation_gwh_2013 : Option ℕ := none
  count_generation_gwh_2014 : Option ℕ := none
  count_generation_gwh_2015 : Option ℕ := none
  count_generation_gwh_2016 : Option ℕ := none
deriving DecidableEq

/-- `country_summary` (lines 70-208). `fuel_list` stands for
`pw.make_fuel_thesaurus().keys()`. The function short-circuits to the
minimal dictionary when the country has no records (lines 97-99); in the
non-empty branch, a country whose records all have `NULL` capacity makes
`SUM(capacity_mw)` return `NULL` and the division on line 106 raise
(`none`). Per-fuel `NULL` capacity sums are turned into 0 (lines 153-156). -/
def country_summary (fuel_list : List String) (db : List DbRecord)
    (country : String) (iso_code : String) : Option Summary :=
  let matching := db.filter (fun r => r.country == country)
  if matching.length = 0 then
    some { country := country, iso_code := iso_code, count := 0 }
  else
    (sqlSum (matching.map (fun r => r.capacity_mw))).map (fun total_capacity_mw =>
        { country := country
          iso_code := iso_code
          count := matching.length
          total_capacity_gw := some (total_capacity_mw / 1000)
          max_capacity_mw := sqlMax (matching.map (fun r => r.capacity_mw))
          count_distinct_fuel :=
            some ((matching.filterMap (fun r => r.fuel1) ++
                   matching.filterMap (fun r => r.fuel2) ++
                   matching.filterMap (fun r => r.fuel3) ++
                   matching.filterMap (fun r => r.fuel4)).dedup.length)
          fuel_counts :=
            fuel_list.map (fun fuel =>
              (fuel, (matching.filter (rowMatchesFuel fuel)).length))
          fuel_capacities_gw :=
            fuel_list.map (fun fuel =>
              (fuel,
               fuelCapGw (sqlSum ((matching.filter (rowMatchesFuel fuel)).map
                 (fun r => r.capacity_mw)))))
          count_distinct_name := some ((matching.filterMap (fun r => r.name)).dedup.length)
          count_distinct_owner := some ((matching.filterMap (fun r => r.owner)).dedup.length)
          count_distinct_source := some ((matching.filterMap (fun r => r.source)).dedup.length)
          count_null_name := some ((matching.filter (fun r => r.name.isNone)).length)
          count_null_pw_idnr := some ((matching.filter (fun r => r.pw_idnr.isNone)).length)
          count_null_capacity_mw :=
            some ((matching.filter (fun r => r.capacity_mw.isNone)).length)
          count_null_year_of_capacity_data :=
            some ((matching.filter (fun r => r.year_of_capacity_data.isNone)).length)
          count_null_owner := some ((matching.filter (fun r => r.owner.isNone)).length)
          count_null_source := some ((matching.filter (fun r => r.source.isNone)).length)
          count_null_url := some ((matching.filter (fun r => r.url.isNone)).length)
          count_null_latitude := some ((matching.filter (fun r => r.latitude.isNone)).length)
          count_null_longitude :=
            some ((matching.filter (fun r => r.longitude.isNone)).length)
          count_null_fuel :=
            some ((matching.filter (fun r =>
              r.fuel1.isNone && r.fuel2.isNone && r.fuel3.isNone && r.fuel4.isNone)).length)
          count_null_generation_gwh_all :=
            some ((matching.filter (fun r =>
              r.generation_gwh_2012.isNone && r.generation_gwh_2013.isNone &&
              r.generation_gwh_2014.isNone && r.generation_gwh_2015.isNone &&
              r.generation_gwh_2016.isNone)).length)
          count_generation_gwh_2012 :=
            some ((matching.filter (fun r => r.generation_gwh_2012.isSome)).length)
          count_generation_gwh_2013 :=
            some ((matching.filter (fun r => r.generation_gwh_2013.isSome)).length)
          count_generation_gwh_2014 :=
            some ((matching.filter (fun r => r.generation_gwh_2014.isSome)).length)
          count_generation_gwh_2015 :=
            some ((matching.filter (fun r => r.generation_gwh_2015.isSome)).length)
          count_generation_gwh_2016 :=
            some ((matching.filter (fun r => r.generation_gwh_2016.isSome)).length) })

/-- The main-block summary phase (lines 234-243): one `country_summary` per
requested `(iso_code, country)` pair, in order, then one output row per
requested code; `none` models a run aborted by an exception inside one of
the summaries. -/
def writeSummaryRows (fuel_list : List String) (db : List DbRecord)
    (requested : List (String × String)) : Option (List Summary) :=
  requested.mapM (fun pr => country_summary fuel_list db pr.2 pr.1)

lemma mapM_option_length {α β : Type} (f : α → Option β) :
    ∀ (l : List α) (res : List β), l.mapM f = some res → res.length = l.length := by
  intro l
  induction l with
  | nil =>
    intro res h
    simp only [List.mapM_nil, pure, Option.some.injEq] at h
    subst h
    rfl
  | cons a l ih =>
    intro res h
    simp only [List.mapM_cons, pure, Option.bind_eq_bind, Option.bind_eq_some,
      Option.some.injEq] at h
    obtain ⟨b, -, bs, hbs, rfl⟩ := h
    simp [ih bs hbs]

/-- C8: a requested country with zero matching records does not raise: the
summary short-circuits to the minimal dictionary holding only the
identifying fields and `count = 0` (every other field absent), and the
writer loop still emits exactly one row per requested country. -/
theorem country_summary_zero_records (fuel_list : List String) (db : List DbRecord)
    (country : String) (iso_code : String)
    (h : (db.filter (fun r => r.country == country)).length = 0) :
    country_summary fuel_list db country iso_code =
      some { country := country, iso_code := iso_code, count := 0 } ∧
    (∀ (requested : List (String × String)) (rows : List Summary),
      writeSummaryRows fuel_list db requested = some rows →
      rows.length = requested.length) := by
  constructor
  · unfold country_summary
    rw [if_pos h]
  · intro requested rows hrows
    exact mapM_option_length _ requested rows hrows

/-- C8 witness: the zero-record short-circuit on an empty database. -/
theorem country_summary_zero_records_witness :
    country_summary [] [] "Atlantis" "ATL" =
      some { country := "Atlantis", iso_code := "ATL", count := 0 } :=
  (country_summary_zero_records [] [] "Atlantis" "ATL" rfl).1

lemma sum_filterMap_eq (l : List (Option ℚ)) :
    (l.filterMap id).sum = (l.map (fun o => o.getD 0)).sum := by
  induction l with
  | nil => rfl
  | cons o l ih => cases o <;> simp [ih]

lemma sqlSum_getD (l : List (Option ℚ)) :
    (sqlSum l).getD 0 = (l.map (fun o => o.getD 0)).sum := by
  unfold sqlSum
  by_cases h : l.filterMap id = []
  · rw [if_pos h]
    rw [← sum_filterMap_eq, h]
    rfl
  · rw [if_neg h]
    rw [← sum_filterMap_eq]
    rfl

lemma sum_map_zero_q {α : Type} (l : List α) : (l.map (fun _ => (0 : ℚ))).sum = 0 := by
  induction l with
  | nil => rfl
  | cons a l ih => simp [ih]

lemma sum_map_ite_eq (f0 : String) (c : ℚ) :
    ∀ (fl : List String), f0 ∈ fl → fl.Nodup →
      (fl.map (fun f => if f = f0 then c else 0)).sum = c := by
  intro fl
  induction fl with
  | nil => intro hmem _; cases hmem
  | cons a l ih =>
    intro hmem hnd
    rw [List.nodup_cons] at hnd
    rcases List.mem_cons.1 hmem with rfl | hmem'
    · have hzero : (l.map (fun f => if f = f0 then c else 0)).sum = 0 := by
        apply List.sum_eq_zero
        intro x hx
        obtain ⟨f, hf, rfl⟩ := List.mem_map.1 hx
        rw [if_neg]
        intro hfa
        exact hnd.1 (hfa ▸ hf)
      simp [hzero]
    · have hne : ¬ a = f0 := by
        intro heq
        exact hnd.1 (heq ▸ hmem')
      simp only [List.map_cons, List.sum_cons, if_neg hne, ih hmem' hnd.2]
      rw [zero_add]

lemma capacity_partition (fl : List String) (hnodup : fl.Nodup) :
    ∀ matching : List DbRecord,
      (∀ r ∈ matching, ∃ f, f ∈ fl ∧ r.fuel1 = some f ∧ r.fuel2 = none ∧
        r.fuel3 = none ∧ r.fuel4 = none) →
      (fl.map (fun fuel =>
        ((matching.filter (rowMatchesFuel fuel)).map
          (fun r => r.capacity_mw.getD 0)).sum)).sum
        = (matching.map (fun r => r.capacity_mw.getD 0)).sum := by
  intro matching
  induction matching with
  | nil =>
    intro _
    simp [sum_map_zero_q]
  | cons r rs ih =>
    intro hone
    obtain ⟨f0, hf0mem, h1, h2, h3, h4⟩ := hone r (by simp)
    have hmatch : ∀ f : String, rowMatchesFuel f r = (f = f0 : Bool) := by
      intro f
      simp only [rowMatchesFuel, h1, h2, h3, h4]
      by_cases hf : f = f0
      · subst hf; simp
      · simp [hf]
        intro hctr
        exact hf hctr.symm
    have hsplit : ∀ f : String,
        (((r :: rs).filter (rowMatchesFuel f)).map (fun q => q.capacity_mw.getD 0)).sum
          = (if f = f0 then r.capacity_mw.getD 0 else 0) +
            ((rs.filter (rowMatchesFuel f)).map (fun q => q.capacity_mw.getD 0)).sum := by
      intro f
      rw [List.filter_cons, hmatch f]
      by_cases hf : f = f0
      · simp [hf]
      · simp [hf]
    have hrec := ih (fun q hq => hone q (List.mem_cons_of_mem r hq))
    simp only [hsplit]
    rw [List.sum_map_add, sum_map_ite_eq f0 _ fl hf0mem hnodup, hrec]
    simp

lemma sum_map_div_q {α : Type} (l : List α) (f : α → ℚ) (c : ℚ) :
    (l.map (fun a => f a / c)).sum = (l.map f).sum / c := by
  induction l with
  | nil => simp
  | cons a l ih => simp [ih, add_div]

lemma fuelCapGw_eq_getD (x : Option ℚ) : fuelCapGw x = x.getD 0 / 1000 := by
  cases x <;> simp [fuelCapGw]

/-- C9 (amended): within one country summary, the per-fuel-category summed
capacities add up to the country's total capacity when the canonical fuel
list has no duplicates and every matching record carries exactly one
canonical fuel (`fuel1` in the list, `fuel2`-`fuel4` NULL). Without that
discipline the identity fails: a multi-fuel record is counted once per
matching category and a record with no category not at all, and the code
has no "none matched" capacity bucket (see the counterexample). -/
theorem fuel_capacity_partition_sum (fuel_list : List String) (db : List DbRecord)
    (country : String) (iso_code : String)
    (hnodup : fuel_list.Nodup)
    (hone : ∀ r ∈ db.filter (fun r => r.country == country),
      ∃ f, f ∈ fuel_list ∧ r.fuel1 = some f ∧ r.fuel2 = none ∧ r.fuel3 = none ∧
        r.fuel4 = none)
    (hne : db.filter (fun r => r.country == country) ≠ []) :
    (country_summary fuel_list db country iso_code).map
        (fun s => ((s.fuel_capacities_gw.map Prod.snd).sum, s.total_capacity_gw)) =
      (country_summary fuel_list db country iso_code).map
        (fun s => (s.total_capacity_gw.getD 0, s.total_capacity_gw)) := by
  have hlen : ¬ (db.filter (fun r => r.country == country)).length = 0 := by
    simpa [List.length_eq_zero] using hne
  unfold country_summary
  dsimp only
  rw [if_neg hlen]
  cases hs : sqlSum ((db.filter (fun r => r.country == country)).map
      (fun r => r.capacity_mw)) with
  | none => rfl
  | some total =>
    have htot : total =
        ((db.filter (fun r => r.country == country)).map
          (fun r => r.capacity_mw.getD 0)).sum := by
      have h0 := sqlSum_getD ((db.filter (fun r => r.country == country)).map
        (fun r => r.capacity_mw))
      rw [hs] at h0
      simpa [List.map_map, Function.comp] using h0
    dsimp only [Option.map]
    congr 1
    refine Prod.ext ?_ rfl
    dsimp only
    rw [List.map_map]
    have hcomp : (Prod.snd ∘ fun fuel =>
        (fuel, fuelCapGw (sqlSum (((db.filter (fun r => r.country == country)).filter
          (rowMatchesFuel fuel)).map (fun r => r.capacity_mw))))) =
        fun fuel => fuelCapGw (sqlSum (((db.filter (fun r => r.country == country)).filter
          (rowMatchesFuel fuel)).map (fun r => r.capacity_mw))) := rfl
    rw [hcomp]
    have hpoint : ∀ fuel : String,
        fuelCapGw (sqlSum (((db.filter (fun r => r.country == country)).filter
          (rowMatchesFuel fuel)).map (fun r => r.capacity_mw))) =
        (((db.filter (fun r => r.country == country)).filter
          (rowMatchesFuel fuel)).map (fun r => r.capacity_mw.getD 0)).sum / 1000 := by
      intro fuel
      rw [fuelCapGw_eq_getD, sqlSum_getD]
      simp [List.map_map, Function.comp_def]
    simp only [hpoint]
    rw [sum_map_div_q, capacity_partition fuel_list hnodup _ hone, ← htot]
    simp

/-- Modelled from the spec: the canonical fuel vocabulary — the keys of
`pw.make_fuel_thesaurus()`, whose module is not under `src/` — as enumerated
by the per-fuel columns of `summary_fieldnames` (lines 25-52). -/
def canonical_fuel_list : List String :=
  ["Coal", "Gas", "Oil", "Petcoke", "Hydro", "Nuclear", "Wind", "Solar",
   "Geothermal", "Biomass", "Cogeneration", "Waste", "Wave and Tidal", "Other"]

/-- C9 counterexample: a country with one record of capacity 1000 MW listing
two fuels (Coal and Gas). The per-category sums count the record once per
category, so they add up to 2 GW while the total capacity is 1 GW. -/
theorem fuel_capacity_partition_sum_cex :
    (country_summary canonical_fuel_list
        [{ country := "Carbonia", capacity_mw := some 1000, fuel1 := some "Coal",
           fuel2 := some "Gas" }] "Carbonia" "CRB").map
        (fun s => ((s.fuel_capacities_gw.map Prod.snd).sum, s.total_capacity_gw)) =
      some (2, some 1) ∧ (2 : ℚ) ≠ 1 := by
  constructor
  · simp +decide only [country_summary, sqlSum, rowMatchesFuel, fuelCapGw,
      canonical_fuel_list, List.filter_cons, List.filter_nil, List.filterMap_cons,
      List.filterMap_nil, List.map_cons, List.map_nil, List.length_cons,
      List.length_nil, Option.map_some, Option.getD_some, List.sum_cons, List.sum_nil]
    norm_num [List.filter_cons, List.filter_nil, rowMatchesFuel, List.filterMap_cons,
      List.filterMap_nil, id]
  · norm_num

/-- C9 witness: the partition identity instantiated on a country with one
single-fuel record. -/
theorem fuel_capacity_partition_sum_witness :
    (country_summary canonical_fuel_list
        [{ country := "Brazil", capacity_mw := some 1000, fuel1 := some "Hydro" }]
        "Brazil" "BRA").map
        (fun s => ((s.fuel_capacities_gw.map Prod.snd).sum, s.total_capacity_gw)) =
      (country_summary canonical_fuel_list
        [{ country := "Brazil", capacity_mw := some 1000, fuel1 := some "Hydro" }]
        "Brazil" "BRA").map
        (fun s => (s.total_capacity_gw.getD 0, s.total_capacity_gw)) :=
  fuel_capacity_partition_sum canonical_fuel_list
    [{ country := "Brazil", capacity_mw := some 1000, fuel1 := some "Hydro" }]
    "Brazil" "BRA" (by decide) (by decide) (by decide)
